import Mathlib

/-!
# Bad-Posture-Detection front end: the `App` component of `src/App.js`

A shallow embedding of the React component `App`.  The six `useState` cells and the
ref `webcamIntervalRef` become fields of `State`; the browser resources the handlers
touch (the table of scheduled intervals, the requests awaiting an answer) become explicit
fields next to them.  Every handler of the component is a pure function on `State`; an
`async` handler is cut at its `await` into the part that runs on the call and the part
that runs when the request settles.
-/

namespace App

/-! ## Data model -/

/-- The browser `File` object picked in the file input (always truthy). -/
structure VideoFile where
  name : String
  size : Nat
  deriving DecidableEq, Repr

/-- The `frame` field of a feedback entry, as far as line 230 looks at it. -/
inductive FrameTag where
  /-- The string `'Live'`, which the webcam loop writes. -/
  | live
  /-- A frame index: a number that is a non-negative integer below `2^53`, the range in
  which a JavaScript number is the integer itself and prints as its decimal digits. -/
  | index (n : Fin 9007199254740992)
  /-- Any other value (a negative, fractional or larger number, another string, a missing
  field); `shown` is what the template literal of line 230 turns it into. -/
  | other (shown : String)
  deriving DecidableEq, Repr

/-- One element of the `feedback` array.  `timestamp` is present on live entries only;
`issues` is `none` when the field is absent (or `null`) in an entry sent by the server. -/
structure FeedbackEntry where
  frame : FrameTag
  timestamp : Option String
  issues : Option (List String)
  deriving DecidableEq, Repr

/-- The body `res.data` of an answer of the frame endpoint: `{ issues: [...] }`, the field
possibly absent. -/
structure FrameResponse where
  issues : Option (List String)
  deriving DecidableEq, Repr

/-- The body `res.data` of an answer of the video endpoint: `{ per_frame_feedback: [...] }`,
the field possibly absent. -/
structure VideoResponse where
  per_frame_feedback : Option (List FeedbackEntry)
  deriving DecidableEq, Repr

/-- The body `err.response.data` of a rejection, when it is not `null` or `undefined`: the
fields `detail` and `message` as the template literal of line 67 shows them, `none` for a
field that is missing or `null`. -/
structure ErrorBody where
  detail : Option String
  message : Option String
  deriving DecidableEq, Repr

/-- The shapes of `err` told apart by the `catch` block of `handleUpload`. -/
inductive UploadError where
  /-- An axios error with `err.response`: the HTTP status and the body, `none` when
  `err.response.data` is `null` or `undefined`. -/
  | serverRejected (status : Nat) (body : Option ErrorBody)
  /-- An axios error with `err.request` but no response. -/
  | noResponse
  /-- An axios error with neither: `err.message`. -/
  | requestError (message : String)
  /-- Anything that is not an axios error, such as the `TypeError` line 59 throws when
  the request resolves with a `null` body. -/
  | unexpected
  deriving DecidableEq, Repr

/-- Component state (lines 12-20) together with the browser resources it drives. -/
structure State where
  /-- State cell `useState(null)`, line 12. -/
  videoFile : Option VideoFile
  /-- State cell `useState([])`, line 13. -/
  feedback : List FeedbackEntry
  /-- State cell `useState(false)`, line 14. -/
  loading : Bool
  /-- State cell `useState(null)`, line 15. -/
  videoPreviewUrl : Option String
  /-- State cell `useState(null)`, line 16. -/
  error : Option String
  /-- State cell `useState(false)`, line 17. -/
  isWebcamActive : Bool
  /-- Ref `useRef(null)`, line 20: the id returned by `setInterval`. -/
  webcamIntervalRef : Option Nat
  /-- Ids of the intervals created by `setInterval` and not yet cleared, oldest first. -/
  timers : List Nat
  /-- The id the next `setInterval` call returns (ids are positive and never reused). -/
  nextTimerId : Nat
  /-- Frame-analysis requests sent and not yet settled. -/
  framesInFlight : Nat
  /-- Video-analysis requests sent and not yet settled. -/
  uploadsInFlight : Nat
  deriving DecidableEq, Repr

/-- The state of a freshly mounted component. -/
def initialState : State :=
  { videoFile := none, feedback := [], loading := false, videoPreviewUrl := none,
    error := none, isWebcamActive := false, webcamIntervalRef := none,
    timers := [], nextTimerId := 1, framesInFlight := 0, uploadsInFlight := 0 }

/-! ## JavaScript helpers -/

/-- JavaScript `a || b` on optional strings: the empty string and a missing value are falsy. -/
def strOr (a : Option String) (b : String) : String :=
  match a with
  | some x => if x = "" then b else x
  | none => b

/-- JavaScript `xs || []` on an optional array: every array, the empty one included, is truthy. -/
def arrOr {α : Type} (xs : Option (List α)) : List α :=
  match xs with
  | some l => l
  | none => []

/-- JavaScript `xs.slice(start)` for a start that is not negative. -/
def slice {α : Type} (xs : List α) (start : Int) : List α :=
  xs.drop start.toNat

/-- Browser `clearInterval(id)`: the interval with that id is no longer scheduled. -/
def clearInterval (timers : List Nat) (id : Nat) : List Nat :=
  timers.filter (fun t => t != id)

/-! ## The live loop (lines 82-127) -/

/-- The entry built inside the `setFeedback` updater, lines 101-105; `now` is what
`new Date().toLocaleTimeString()` returns when the updater runs. -/
def newFeedback (res : FrameResponse) (now : String) : FeedbackEntry :=
  { frame := FrameTag.live, timestamp := some now, issues := some (arrOr res.issues) }

/-- The updater passed to `setFeedback`, lines 100-108. -/
def liveUpdater (res : FrameResponse) (now : String) (prev : List FeedbackEntry) :
    List FeedbackEntry :=
  let updatedFeedback := prev ++ [newFeedback res now]
  slice updatedFeedback (max ((updatedFeedback.length : Int) - 10) 0)

/-- Lines 82-89 and 116: the synchronous body of `startWebcamAnalysis`. -/
def startWebcamAnalysis (s : State) : State :=
  { s with
    error := none
    feedback := []
    videoFile := none
    videoPreviewUrl := none
    isWebcamActive := true
    webcamIntervalRef := some s.nextTimerId
    timers := s.timers ++ [s.nextTimerId]
    nextTimerId := s.nextTimerId + 1 }

/-- Lines 90-97: one run of the interval callback up to its `await`.  `webcam` is
`webcamRef.current` (`none` while no `Webcam` is mounted) and, inside, the value of
`getScreenshot()` (`none` for `null`).  A request is sent only for a truthy screenshot. -/
def intervalTick (s : State) (webcam : Option (Option String)) : State :=
  match webcam with
  | some (some imageSrc) =>
    if imageSrc = "" then s else { s with framesInFlight := s.framesInFlight + 1 }
  | _ => s

/-- Lines 99-108: the callback resumes after a successful `axios.post`. -/
def frameResolved (s : State) (res : FrameResponse) (now : String) : State :=
  { s with
    feedback := liveUpdater res now s.feedback
    framesInFlight := s.framesInFlight - 1 }

/-- Lines 110-113: the callback resumes in its `catch` block. -/
def frameRejected (s : State) : State :=
  { s with
    error := some "Live analysis error. Check backend console."
    framesInFlight := s.framesInFlight - 1 }

/-- Lines 119-127.  The guard `if (webcamIntervalRef.current)` is a truthiness test: it
fails for `null` and for the number `0`. -/
def stopWebcamAnalysis (s : State) : State :=
  let s1 : State :=
    match s.webcamIntervalRef with
    | some id =>
      if id = 0 then s
      else { s with timers := clearInterval s.timers id, webcamIntervalRef := none }
    | none => s
  { s1 with isWebcamActive := false, loading := false, error := none }

/-- Lines 129-133: the effect cleanup run when the component is torn down. -/
def teardown (s : State) : State :=
  stopWebcamAnalysis s

/-! ## File mode (lines 22-80) -/

/-- Lines 22-34.  `file` is `e.target.files[0]`; `url` is what `URL.createObjectURL`
returns for it. -/
def handleVideoChange (s : State) (file : Option VideoFile) (url : String) : State :=
  match file with
  | some f =>
    stopWebcamAnalysis
      { s with videoFile := some f, videoPreviewUrl := some url, feedback := [], error := none }
  | none => { s with videoFile := none, videoPreviewUrl := none }

/-- Lines 36-56: `handleUpload` from the call to the `await`. -/
def handleUploadStart (s : State) : State :=
  match s.videoFile with
  | none => { s with error := some "Please select a video file to upload." }
  | some _ =>
    { s with loading := true, feedback := [], error := none,
             uploadsInFlight := s.uploadsInFlight + 1 }

/-- The message the `catch` block passes to `setError`, lines 65-76.  For a rejection
without a body, reading `err.response.data.detail` on line 67 throws before `setError`
is reached: there is no message. -/
def uploadErrorMessage : UploadError → Option String
  | .serverRejected status (some body) =>
    some ("Server Error: " ++ toString status ++ " - " ++
      strOr body.detail (strOr body.message "Unknown error"))
  | .serverRejected _ none => none
  | .noResponse =>
    some "No response from backend for video analysis. Is the backend server running?"
  | .requestError message => some ("Request Error for video analysis: " ++ message)
  | .unexpected => some "An unexpected error occurred during video analysis."

/-- Whether the promise returned by `handleUpload` rejects: only when the `catch` block
itself throws (line 67 on a rejection without a body). -/
def handleUploadRejects : Except UploadError VideoResponse → Bool
  | .error (.serverRejected _ none) => true
  | _ => false

/-- Lines 58-79: `handleUpload` resumes when the request settles; `finally` runs on both
branches, also when the `catch` block throws. -/
def handleUploadSettle (s : State) (outcome : Except UploadError VideoResponse) : State :=
  let s1 : State :=
    match outcome with
    | .ok res => { s with feedback := arrOr res.per_frame_feedback }
    | .error err =>
      match uploadErrorMessage err with
      | some message => { s with error := some message }
      | none => s
  { s1 with loading := false, uploadsInFlight := s1.uploadsInFlight - 1 }

/-- A whole call of `handleUpload` with nothing else running between the request and its
answer: the early return of lines 37-40, or start followed by settle. -/
def handleUpload (s : State) (outcome : Except UploadError VideoResponse) : State :=
  match s.videoFile with
  | none => handleUploadStart s
  | some _ => handleUploadSettle (handleUploadStart s) outcome

/-! ## Rendering (lines 157-241) -/

/-- Line 160: the `disabled` attribute of the upload button. -/
def uploadDisabled (s : State) : Bool :=
  s.loading || s.videoFile.isNone || s.isWebcamActive

/-- Lines 199-206: the start button is rendered only while `isWebcamActive` is false. -/
def startButtonRendered (s : State) : Bool :=
  !s.isWebcamActive

/-- What is shown after the label of an entry, lines 231-235. -/
inductive PostureView where
  /-- The red span with `issues.join(", ")`. -/
  | bad (text : String)
  /-- The green span "Good Posture". -/
  | good
  deriving DecidableEq, Repr

/-- Line 230: the label of an entry. -/
def entryLabel (e : FeedbackEntry) : String :=
  match e.frame with
  | .live => "Live Frame (" ++ e.timestamp.getD "undefined" ++ ")"
  | .index n => "Frame " ++ toString n.val
  | .other shown => "Frame " ++ shown

/-- Lines 231-235: `frame.issues && frame.issues.length > 0 ? ... : ...`. -/
def entryView (e : FeedbackEntry) : PostureView :=
  match e.issues with
  | some issues =>
    if issues.length > 0 then PostureView.bad (" " ++ ", ".intercalate issues)
    else PostureView.good
  | none => PostureView.good

/-- Lines 226-238: the list is rendered only for a non-empty `feedback`. -/
def feedbackView (feedback : List FeedbackEntry) : Option (List (String × PostureView)) :=
  if feedback.length > 0 then some (feedback.map fun e => (entryLabel e, entryView e))
  else none

/-! ## Event sequences -/

/-- What can happen to a mounted component: a handler is called, an interval fires, a
request settles, the component is torn down. -/
inductive Event where
  | videoChange (file : Option VideoFile) (url : String)
  | uploadClick
  | uploadSettled (outcome : Except UploadError VideoResponse)
  | startWebcam
  | stopWebcam
  | tick (webcam : Option (Option String))
  | frameResolves (res : FrameResponse) (now : String)
  | frameRejects
  | unmount

/-- One event.  A handler call is always possible; an interval fires only while one is
scheduled and a request settles only while one is in flight. -/
def step (s : State) : Event → State
  | .videoChange file url => handleVideoChange s file url
  | .uploadClick => handleUploadStart s
  | .uploadSettled outcome =>
    if s.uploadsInFlight = 0 then s else handleUploadSettle s outcome
  | .startWebcam => startWebcamAnalysis s
  | .stopWebcam => stopWebcamAnalysis s
  | .tick webcam => if s.timers.isEmpty then s else intervalTick s webcam
  | .frameResolves res now =>
    if s.framesInFlight = 0 then s else frameResolved s res now
  | .frameRejects => if s.framesInFlight = 0 then s else frameRejected s
  | .unmount => teardown s

/-- The state after a sequence of events. -/
def run (s : State) (events : List Event) : State :=
  events.foldl step s

/-- The loop state `Running`: live capture is on and the interval held in
`webcamIntervalRef` is scheduled. -/
def Running (s : State) : Prop :=
  s.isWebcamActive = true ∧ ∃ id, id ≠ 0 ∧ s.webcamIntervalRef = some id ∧ id ∈ s.timers

/-- The loop state `Stopped`: no interval handle and live capture off. -/
def Stopped (s : State) : Prop :=
  s.webcamIntervalRef = none ∧ s.isWebcamActive = false

/-- The history after the resolutions `rs` (answer and clock reading of each, in the order
they resolve) went through the `setFeedback` updater, starting from `h`. -/
def applyResolutions (h : List FeedbackEntry) (rs : List (FrameResponse × String)) :
    List FeedbackEntry :=
  rs.foldl (fun acc r => liveUpdater r.1 r.2 acc) h

/-- The state after the frame analyses `rs` resolved successfully, one after the other. -/
def resolveAll (s : State) (rs : List (FrameResponse × String)) : State :=
  rs.foldl (fun acc r => frameResolved acc r.1 r.2) s

/-- The entries the resolutions `rs` produce, in the order they resolve. -/
def entriesOf (rs : List (FrameResponse × String)) : List FeedbackEntry :=
  rs.map fun r => newFeedback r.1 r.2

/-! ## Predicates and sample data used in the statements -/

/-- File mode and live mode are not on together: no staged file or preview while live
capture is active. -/
def ModesExclusive (s : State) : Prop :=
  ¬ ((s.videoFile ≠ none ∨ s.videoPreviewUrl ≠ none) ∧ s.isWebcamActive = true)

/-- The intervals scheduled are exactly the one held in `webcamIntervalRef`, if any. -/
def OnlyRefScheduled (s : State) : Prop :=
  s.timers = (match s.webcamIntervalRef with
    | some id => [id]
    | none => [])

/-- The event sequence calls `startWebcamAnalysis` only in states where its button is
rendered (lines 199-206), that is while `isWebcamActive` is false. -/
def startOnlyWhenRendered : State → List Event → Bool
  | _, [] => true
  | s, e :: es =>
    (match e with
      | .startWebcam => startButtonRendered s
      | _ => true) && startOnlyWhenRendered (step s e) es

/-- Whether the control behind a handler can be used in state `s`: the file input is
disabled while `isWebcamActive` (line 155), the upload button as line 160 says, the start
button is rendered while `isWebcamActive` is false and the stop button while it is true,
both disabled while `loading` (lines 199-215).  Ticks, settled requests and teardown are
not controls. -/
def controlEnabled (s : State) : Event → Bool
  | .videoChange _ _ => !s.isWebcamActive
  | .uploadClick => !uploadDisabled s
  | .startWebcam => startButtonRendered s && !s.loading
  | .stopWebcam => s.isWebcamActive && !s.loading
  | _ => true

/-- Every handler call of the sequence goes through a control that is enabled at that
moment. -/
def allEnabled : State → List Event → Bool
  | _, [] => true
  | s, e :: es => controlEnabled s e && allEnabled (step s e) es

/-- A file as the file input hands it over. -/
def sampleFile : VideoFile := { name := "clip.mp4", size := 1024 }

/-- A second file. -/
def otherFile : VideoFile := { name := "second.mp4", size := 2048 }

/-- The events that bring an upload and live capture together: choose a file, start the
upload, choose another file while the request is out (which resets `loading`), start
live capture. -/
def overlapEvents : List Event :=
  [.videoChange (some sampleFile) "blob:clip", .uploadClick,
   .videoChange (some otherFile) "blob:second", .startWebcam]

/-- Live capture running while the upload started before it is still in flight. -/
def uploadDuringLive : State :=
  run initialState overlapEvents

/-- The answer of the batch scenario: three frames, the middle one with an issue. -/
def scenarioFeedback : List FeedbackEntry :=
  [ { frame := .index 0, timestamp := none, issues := some [] },
    { frame := .index 1, timestamp := none, issues := some ["slouching"] },
    { frame := .index 2, timestamp := none, issues := some [] } ]

/-- The response body carrying `scenarioFeedback`. -/
def scenarioResponse : VideoResponse := { per_frame_feedback := some scenarioFeedback }

/-- Live capture started on a fresh component and one frame sent for analysis. -/
def liveOneInFlight : State :=
  run initialState [.startWebcam, .tick (some (some "data:image/jpeg;base64,AAAA"))]

/-- A Running loop together with a staged file.  No event sequence from the initial state
leads here; it is the state in which `handleUpload`, called on a Running loop, gets past
its no-file return. -/
def liveWithStagedFile : State :=
  { liveOneInFlight with videoFile := some sampleFile, videoPreviewUrl := some "blob:clip" }

/-- A file is staged and an earlier upload has filled the history with the scenario
answer. -/
def stagedWithHistory : State :=
  run initialState
    [.videoChange (some sampleFile) "blob:clip", .uploadClick,
     .uploadSettled (.ok scenarioResponse)]

/-- The facts about the loop that every guarded event sequence keeps: an inactive loop
holds no interval handle, a handle is never the falsy id `0`, ids start at one, and only
the interval held in the ref is scheduled. -/
def LoopInv (s : State) : Prop :=
  (s.isWebcamActive = false → s.webcamIntervalRef = none)
  ∧ (∀ id, s.webcamIntervalRef = some id → id ≠ 0)
  ∧ 1 ≤ s.nextTimerId
  ∧ OnlyRefScheduled s

/-- The upload button was pressed on a fresh component, with no file chosen. -/
def afterEmptyUpload : State :=
  run initialState [.uploadClick]

/-- Live capture with two frames sent, the first of which has been rejected. -/
def liveAfterFailure : State :=
  run initialState
    [.startWebcam, .tick (some (some "data:image/jpeg;base64,AAAA")),
     .tick (some (some "data:image/jpeg;base64,BBBB")), .frameRejects]

/-! ## The bounded live history -/

theorem liveUpdater_eq (res : FrameResponse) (now : String) (prev : List FeedbackEntry) :
    liveUpdater res now prev
      = (prev ++ [newFeedback res now]).drop (prev.length + 1 - 10) := by
  unfold liveUpdater slice
  simp only [List.length_append, List.length_singleton]
  congr 1
  omega

theorem liveUpdater_length (res : FrameResponse) (now : String) (prev : List FeedbackEntry) :
    (liveUpdater res now prev).length = min (prev.length + 1) 10 := by
  rw [liveUpdater_eq]
  simp only [List.length_drop, List.length_append, List.length_singleton]
  omega

theorem applyResolutions_eq (rs : List (FrameResponse × String)) :
    ∀ h : List FeedbackEntry, h.length ≤ 10 →
      applyResolutions h rs
        = (h ++ entriesOf rs).drop (h.length + rs.length - 10) := by
  induction rs with
  | nil =>
    intro h hh
    have h0 : h.length - 10 = 0 := by omega
    simp [applyResolutions, entriesOf, h0]
  | cons r rs ih =>
    intro h hh
    have hlen := liveUpdater_length r.1 r.2 h
    have step : applyResolutions h (r :: rs) = applyResolutions (liveUpdater r.1 r.2 h) rs := by
      simp [applyResolutions]
    rw [step, ih _ (by omega), hlen, liveUpdater_eq]
    have hk : h.length + 1 - 10 ≤ (h ++ [newFeedback r.1 r.2]).length := by
      simp only [List.length_append, List.length_singleton]; omega
    have happ : List.drop (h.length + 1 - 10) (h ++ [newFeedback r.1 r.2]) ++ entriesOf rs
        = List.drop (h.length + 1 - 10) ((h ++ [newFeedback r.1 r.2]) ++ entriesOf rs) := by
      rw [List.drop_append_of_le_length hk]
    rw [happ, List.drop_drop]
    have hcons : (h ++ [newFeedback r.1 r.2]) ++ entriesOf rs = h ++ entriesOf (r :: rs) := by
      simp [entriesOf]
    rw [hcons]
    congr 1
    simp only [List.length_cons]
    omega

theorem resolveAll_feedback (rs : List (FrameResponse × String)) :
    ∀ s : State, (resolveAll s rs).feedback = applyResolutions s.feedback rs := by
  induction rs with
  | nil => intro s; rfl
  | cons r rs ih =>
    intro s
    have h1 : resolveAll s (r :: rs) = resolveAll (frameResolved s r.1 r.2) rs := by
      simp [resolveAll]
    have h2 : applyResolutions s.feedback (r :: rs)
        = applyResolutions (liveUpdater r.1 r.2 s.feedback) rs := by
      simp [applyResolutions]
    rw [h1, h2, ih]
    rfl

theorem entriesOf_eq (rs : List (FrameResponse × String)) :
    entriesOf rs
      = rs.map fun r =>
          ({ frame := FrameTag.live, timestamp := some r.2,
             issues := some (r.1.issues.getD []) } : FeedbackEntry) := by
  unfold entriesOf
  apply List.map_congr_left
  intro r _
  cases hi : r.1.issues <;> simp [newFeedback, arrOr, hi]

/-- C1: after live capture starts (history cleared), whatever frame analyses `rs` resolve
successfully, in the order they resolve, the history has length `min n 10` and is the
last `min n 10` results of that sequence in resolution order: its entry `i` is the live
entry carrying the clock reading and the issues (none for a missing field) of resolution
number `n - min n 10 + i`. The history never exceeded ten entries after any step on the
way. -/
theorem live_history_last_ten (s : State) (rs : List (FrameResponse × String)) :
    ((resolveAll (startWebcamAnalysis s) rs).feedback.length = min rs.length 10)
    ∧ ((resolveAll (startWebcamAnalysis s) rs).feedback
        = (rs.map fun r =>
            ({ frame := FrameTag.live, timestamp := some r.2,
               issues := some (r.1.issues.getD []) } : FeedbackEntry)).drop
            (rs.length - min rs.length 10))
    ∧ (∀ (i : Nat) (res : FrameResponse) (now : String),
        rs[rs.length - min rs.length 10 + i]? = some (res, now) →
        (resolveAll (startWebcamAnalysis s) rs).feedback[i]?
          = some { frame := FrameTag.live, timestamp := some now,
                   issues := some (res.issues.getD []) })
    ∧ ((resolveAll (startWebcamAnalysis s) rs).feedback
        = (entriesOf rs).drop (rs.length - min rs.length 10))
    ∧ (∀ i, (resolveAll (startWebcamAnalysis s) rs).feedback[i]?
        = (entriesOf rs)[rs.length - min rs.length 10 + i]?)
    ∧ (∀ k, (resolveAll (startWebcamAnalysis s) (rs.take k)).feedback.length ≤ 10) := by
  have key : ∀ l : List (FrameResponse × String),
      (resolveAll (startWebcamAnalysis s) l).feedback
        = (entriesOf l).drop (l.length - min l.length 10) := by
    intro l
    rw [resolveAll_feedback]
    have h0 : (startWebcamAnalysis s).feedback = [] := rfl
    rw [h0, applyResolutions_eq l [] (by simp)]
    simp only [List.nil_append, List.length_nil]
    congr 1
    omega
  have klen : ∀ l : List (FrameResponse × String),
      (resolveAll (startWebcamAnalysis s) l).feedback.length = min l.length 10 := by
    intro l
    rw [key l]
    simp only [List.length_drop, entriesOf, List.length_map]
    omega
  refine ⟨klen rs, ?_, ?_, key rs, ?_, ?_⟩
  · rw [key rs, entriesOf_eq]
  · intro i res now hi
    rw [key rs, entriesOf_eq, List.getElem?_drop, List.getElem?_map, hi]
    rfl
  · intro i
    rw [key rs, List.getElem?_drop]
  · intro k
    rw [klen]
    omega

/-! ## Resolutions after a stop -/

theorem stopWebcamAnalysis_feedback (s : State) :
    (stopWebcamAnalysis s).feedback = s.feedback := by
  unfold stopWebcamAnalysis
  cases s.webcamIntervalRef with
  | none => rfl
  | some id => by_cases h : id = 0 <;> simp [h]

theorem stopWebcamAnalysis_framesInFlight (s : State) :
    (stopWebcamAnalysis s).framesInFlight = s.framesInFlight := by
  unfold stopWebcamAnalysis
  cases s.webcamIntervalRef with
  | none => rfl
  | some id => by_cases h : id = 0 <;> simp [h]

theorem stopWebcamAnalysis_isWebcamActive (s : State) :
    (stopWebcamAnalysis s).isWebcamActive = false := rfl

theorem liveUpdater_getLast (res : FrameResponse) (now : String) (prev : List FeedbackEntry) :
    (liveUpdater res now prev).getLast? = some (newFeedback res now) := by
  rw [liveUpdater_eq]
  have hlt : prev.length + 1 - 10 < (prev ++ [newFeedback res now]).length := by
    simp only [List.length_append, List.length_singleton]; omega
  rw [List.getLast?_drop, if_neg (by omega)]
  simp

theorem liveOneInFlight_running : Running liveOneInFlight :=
  ⟨rfl, 1, by decide, rfl, by decide⟩

/-- C2, as stated, fails: on a fresh component, start live capture, let one frame go out,
stop, and let the answer arrive; the history after the answer is not the history after
the stop. -/
theorem post_stop_resolution_not_discarded :
    ¬ (∀ s : State, Running s → 0 < s.framesInFlight → ∀ (res : FrameResponse) (now : String),
        (run s [.stopWebcam, .frameResolves res now]).feedback
          = (run s [.stopWebcam]).feedback) := by
  intro h
  have h1 := h liveOneInFlight liveOneInFlight_running (by decide) { issues := some [] } "10:15:00"
  have h2 : (run liveOneInFlight [.stopWebcam]).feedback = [] := rfl
  rw [h2] at h1
  have h3 : (run liveOneInFlight [.stopWebcam, .frameResolves { issues := some [] } "10:15:00"]).feedback
      = [newFeedback { issues := some [] } "10:15:00"] := by
    simp [run, step, liveOneInFlight, initialState, startWebcamAnalysis, intervalTick,
      stopWebcamAnalysis, frameResolved, liveUpdater, slice, clearInterval]
  rw [h3] at h1
  exact List.cons_ne_nil _ _ h1

/-- C2, amended: when `stopWebcamAnalysis` runs on a Running loop with a frame analysis in
flight and the analysis then resolves successfully, the stop leaves the history as it
was and the resolution appends its entry: the history becomes the last ten of the
history after the stop followed by the new entry, which is its last element. The loop
stays stopped. -/
theorem post_stop_resolution_appends (s : State) (res : FrameResponse) (now : String)
    (hrun : Running s) (hflight : 0 < s.framesInFlight) :
    (run s [.stopWebcam]).feedback = s.feedback
    ∧ (run s [.stopWebcam, .frameResolves res now]).feedback
        = liveUpdater res now (run s [.stopWebcam]).feedback
    ∧ (run s [.stopWebcam, .frameResolves res now]).feedback.getLast?
        = some (newFeedback res now)
    ∧ Stopped (run s [.stopWebcam, .frameResolves res now]) := by
  have hf : (stopWebcamAnalysis s).framesInFlight ≠ 0 := by
    rw [stopWebcamAnalysis_framesInFlight]; omega
  have hstep : run s [.stopWebcam, .frameResolves res now]
      = frameResolved (stopWebcamAnalysis s) res now := by
    simp [run, step, hf]
  have hstop : run s [.stopWebcam] = stopWebcamAnalysis s := rfl
  rw [hstep, hstop]
  refine ⟨stopWebcamAnalysis_feedback s, rfl, liveUpdater_getLast res now _, ?_, rfl⟩
  obtain ⟨_, id, hid, href, _⟩ := hrun
  simp [frameResolved, stopWebcamAnalysis, href, hid]

theorem post_stop_resolution_appends_witness :
    Running liveOneInFlight ∧ 0 < liveOneInFlight.framesInFlight
    ∧ (run liveOneInFlight [.stopWebcam, .frameResolves { issues := none } "10:15:00"]).feedback.getLast?
        = some (newFeedback { issues := none } "10:15:00") :=
  ⟨liveOneInFlight_running, by decide,
    (post_stop_resolution_appends liveOneInFlight { issues := none } "10:15:00"
      liveOneInFlight_running (by decide)).2.2.1⟩

/-! ## The batch path -/

theorem handleUploadSettle_error_feedback (t : State) (err : UploadError) :
    (handleUploadSettle t (.error err)).feedback = t.feedback := by
  unfold handleUploadSettle
  dsimp only
  cases uploadErrorMessage err <;> rfl

theorem handleUploadSettle_fields (s : State) (outcome : Except UploadError VideoResponse) :
    (handleUploadSettle s outcome).videoFile = s.videoFile
    ∧ (handleUploadSettle s outcome).videoPreviewUrl = s.videoPreviewUrl
    ∧ (handleUploadSettle s outcome).isWebcamActive = s.isWebcamActive
    ∧ (handleUploadSettle s outcome).webcamIntervalRef = s.webcamIntervalRef
    ∧ (handleUploadSettle s outcome).timers = s.timers
    ∧ (handleUploadSettle s outcome).nextTimerId = s.nextTimerId := by
  unfold handleUploadSettle
  cases outcome with
  | ok res => exact ⟨rfl, rfl, rfl, rfl, rfl, rfl⟩
  | error err =>
    dsimp only
    cases uploadErrorMessage err <;> exact ⟨rfl, rfl, rfl, rfl, rfl, rfl⟩

theorem handleUploadStart_fields (s : State) :
    (handleUploadStart s).isWebcamActive = s.isWebcamActive
    ∧ (handleUploadStart s).webcamIntervalRef = s.webcamIntervalRef
    ∧ (handleUploadStart s).timers = s.timers := by
  unfold handleUploadStart
  cases s.videoFile <;> exact ⟨rfl, rfl, rfl⟩

theorem stagedWithHistory_feedback : stagedWithHistory.feedback = scenarioFeedback := rfl

theorem stagedWithHistory_videoFile : stagedWithHistory.videoFile = some sampleFile := rfl

/-- C3, as stated, fails: with a file staged and the three scenario entries on display, an
upload that gets no response leaves an empty history, not the three entries. -/
theorem failed_upload_loses_history :
    ¬ (∀ (s : State) (f : VideoFile) (err : UploadError), s.videoFile = some f →
        (handleUpload s (.error err)).feedback = s.feedback) := by
  intro h
  have h1 := h stagedWithHistory sampleFile .noResponse stagedWithHistory_videoFile
  rw [stagedWithHistory_feedback] at h1
  have h2 : (handleUpload stagedWithHistory (.error .noResponse)).feedback = [] := rfl
  rw [h2] at h1
  exact List.cons_ne_nil _ _ h1.symm

/-- C3, amended: with a file staged, `handleUpload` clears the history before the request
is sent, and a failure (server rejection, no response, client error or anything else)
leaves the history as it finds it; so a call of `handleUpload` whose request fails, with
nothing else happening in between, ends with an empty history. -/
theorem failed_upload_leaves_empty_history (s : State) (f : VideoFile) (err : UploadError)
    (hf : s.videoFile = some f) :
    (handleUploadStart s).feedback = []
    ∧ (∀ t : State, (handleUploadSettle t (.error err)).feedback = t.feedback)
    ∧ (handleUpload s (.error err)).feedback = [] := by
  have hstart : (handleUploadStart s).feedback = [] := by
    simp [handleUploadStart, hf]
  refine ⟨hstart, fun t => handleUploadSettle_error_feedback t err, ?_⟩
  have hcall : handleUpload s (.error err)
      = handleUploadSettle (handleUploadStart s) (.error err) := by
    simp [handleUpload, hf]
  rw [hcall, handleUploadSettle_error_feedback, hstart]

theorem failed_upload_leaves_empty_history_witness :
    stagedWithHistory.videoFile = some sampleFile
    ∧ stagedWithHistory.feedback = scenarioFeedback
    ∧ (handleUpload stagedWithHistory (.error (.serverRejected 500 none))).feedback = [] :=
  ⟨rfl, rfl,
    (failed_upload_leaves_empty_history stagedWithHistory sampleFile
      (.serverRejected 500 none) rfl).2.2⟩

theorem entryView_bad_iff (e : FeedbackEntry) :
    (∃ text, entryView e = PostureView.bad text) ↔ ∃ l, e.issues = some l ∧ l ≠ [] := by
  unfold entryView
  cases hi : e.issues with
  | none => simp
  | some l =>
    cases l with
    | nil => simp
    | cons a t => simp

theorem entryView_good_iff (e : FeedbackEntry) :
    entryView e = PostureView.good ↔ ¬ ∃ l, e.issues = some l ∧ l ≠ [] := by
  unfold entryView
  cases hi : e.issues with
  | none => simp
  | some l =>
    cases l with
    | nil => simp
    | cons a t => simp

theorem feedbackView_getElem (fb : List FeedbackEntry) (i : Nat) (e : FeedbackEntry)
    (h : fb[i]? = some e) :
    (feedbackView fb).bind (fun views => views[i]?) = some (entryLabel e, entryView e) := by
  have hne : fb.length > 0 := by
    cases fb with
    | nil => simp at h
    | cons a t => simp
  simp [feedbackView, hne, List.getElem?_map, h]

/-- C4: with a file staged, a call of `handleUpload` that succeeds ends with the history
equal to the `per_frame_feedback` of the response (same entries, same order, whatever
was displayed before; empty when the field is missing) and the busy flag false, and so
does the success branch resumed in any state whatever; the rendered list shows entry `i` with its issues exactly when its issues list is non-empty
and as "Good Posture" otherwise. For the three-frame scenario the list has three rows,
frame 1 flagged, frames 0 and 2 good. -/
theorem batch_success_replaces_history (s : State) (f : VideoFile) (res : VideoResponse)
    (hf : s.videoFile = some f) :
    (∀ entries, res.per_frame_feedback = some entries →
        (handleUpload s (.ok res)).feedback = entries)
    ∧ (res.per_frame_feedback = none → (handleUpload s (.ok res)).feedback = [])
    ∧ (handleUpload s (.ok res)).loading = false
    ∧ (∀ t : State, (handleUploadSettle t (.ok res)).feedback = arrOr res.per_frame_feedback
        ∧ (handleUploadSettle t (.ok res)).loading = false)
    ∧ (∀ (i : Nat) (e : FeedbackEntry), (handleUpload s (.ok res)).feedback[i]? = some e →
        (feedbackView (handleUpload s (.ok res)).feedback).bind (fun views => views[i]?)
            = some (entryLabel e, entryView e)
        ∧ ((∃ text, entryView e = PostureView.bad text) ↔ ∃ l, e.issues = some l ∧ l ≠ [])
        ∧ (entryView e = PostureView.good ↔ ¬ ∃ l, e.issues = some l ∧ l ≠ []))
    ∧ (handleUpload s (.ok scenarioResponse)).feedback = scenarioFeedback
    ∧ feedbackView (handleUpload s (.ok scenarioResponse)).feedback
        = some [("Frame 0", PostureView.good), ("Frame 1", PostureView.bad " slouching"),
                ("Frame 2", PostureView.good)] := by
  have hfb : ∀ r : VideoResponse,
      (handleUpload s (.ok r)).feedback = arrOr r.per_frame_feedback := by
    intro r
    simp [handleUpload, handleUploadStart, handleUploadSettle, hf]
  refine ⟨?_, ?_, ?_, fun t => ⟨rfl, rfl⟩, ?_, ?_, ?_⟩
  · intro entries he
    rw [hfb, he]; rfl
  · intro he
    rw [hfb, he]; rfl
  · simp [handleUpload, handleUploadStart, handleUploadSettle, hf]
  · intro i e hi
    exact ⟨feedbackView_getElem _ i e hi, entryView_bad_iff e, entryView_good_iff e⟩
  · rw [hfb]; rfl
  · rw [hfb]
    decide

theorem batch_success_replaces_history_witness :
    stagedWithHistory.videoFile = some sampleFile
    ∧ (handleUpload stagedWithHistory (.ok { per_frame_feedback := some [] })).feedback = []
    ∧ (handleUpload stagedWithHistory (.ok { per_frame_feedback := some [] })).loading = false :=
  ⟨rfl,
    (batch_success_replaces_history stagedWithHistory sampleFile
      { per_frame_feedback := some [] } rfl).1 [] rfl,
    (batch_success_replaces_history stagedWithHistory sampleFile
      { per_frame_feedback := some [] } rfl).2.2.1⟩

/-! ## A failed frame analysis -/

/-- C5: on a Running loop with a frame analysis in flight, when the analysis rejects the
error state becomes the (non-empty) live-analysis message, the history is unchanged, and
the loop stays Running: `isWebcamActive` is still true, the interval handle and the
scheduled intervals are unchanged, and the next tick with a screenshot still sends a
request. -/
theorem frame_failure_keeps_loop_running (s : State) (hrun : Running s)
    (hflight : 0 < s.framesInFlight) :
    (run s [.frameRejects]).error = some "Live analysis error. Check backend console."
    ∧ (∃ msg, (run s [.frameRejects]).error = some msg ∧ msg ≠ "")
    ∧ (run s [.frameRejects]).feedback = s.feedback
    ∧ Running (run s [.frameRejects])
    ∧ (run s [.frameRejects]).isWebcamActive = true
    ∧ (run s [.frameRejects]).webcamIntervalRef = s.webcamIntervalRef
    ∧ (run s [.frameRejects]).timers = s.timers
    ∧ (∀ imageSrc, imageSrc ≠ "" →
        (run s [.frameRejects, .tick (some (some imageSrc))]).framesInFlight
          = (run s [.frameRejects]).framesInFlight + 1) := by
  have hne : s.framesInFlight ≠ 0 := by omega
  have hstep : run s [.frameRejects] = frameRejected s := by
    simp [run, step, hne]
  obtain ⟨hact, id, hid, href, hmem⟩ := hrun
  have htim : s.timers ≠ [] := List.ne_nil_of_mem hmem
  refine ⟨?_, ?_, ?_, ?_, ?_, ?_, ?_, ?_⟩
  · rw [hstep]; rfl
  · rw [hstep]; exact ⟨_, rfl, by decide⟩
  · rw [hstep]; rfl
  · rw [hstep]; exact ⟨hact, id, hid, href, hmem⟩
  · rw [hstep]; exact hact
  · rw [hstep]; rfl
  · rw [hstep]; rfl
  · intro imageSrc himg
    have h2 : run s [.frameRejects, .tick (some (some imageSrc))]
        = step (run s [.frameRejects]) (.tick (some (some imageSrc))) := rfl
    rw [h2, hstep]
    simp [step, frameRejected, intervalTick, htim, himg]

theorem frame_failure_keeps_loop_running_witness :
    Running liveOneInFlight ∧ 0 < liveOneInFlight.framesInFlight
    ∧ Running (run liveOneInFlight [.frameRejects])
    ∧ (run liveOneInFlight [.frameRejects]).feedback = liveOneInFlight.feedback :=
  ⟨liveOneInFlight_running, by decide,
    (frame_failure_keeps_loop_running liveOneInFlight liveOneInFlight_running
      (by decide)).2.2.2.1,
    (frame_failure_keeps_loop_running liveOneInFlight liveOneInFlight_running
      (by decide)).2.2.1⟩

/-! ## Mode switching -/

theorem stopWebcamAnalysis_videoFile (s : State) :
    (stopWebcamAnalysis s).videoFile = s.videoFile := by
  unfold stopWebcamAnalysis
  cases s.webcamIntervalRef with
  | none => rfl
  | some id => by_cases h : id = 0 <;> simp [h]

theorem stopWebcamAnalysis_videoPreviewUrl (s : State) :
    (stopWebcamAnalysis s).videoPreviewUrl = s.videoPreviewUrl := by
  unfold stopWebcamAnalysis
  cases s.webcamIntervalRef with
  | none => rfl
  | some id => by_cases h : id = 0 <;> simp [h]

theorem handleVideoChange_isWebcamActive (s : State) (f : VideoFile) (url : String) :
    (handleVideoChange s (some f) url).isWebcamActive = false := rfl

theorem step_modesExclusive (s : State) (e : Event) (h : ModesExclusive s) :
    ModesExclusive (step s e) := by
  unfold ModesExclusive at h ⊢
  cases e with
  | videoChange file url =>
    cases file with
    | none => simp [step, handleVideoChange]
    | some f =>
      have : (step s (.videoChange (some f) url)).isWebcamActive = false := rfl
      simp [this]
  | uploadClick =>
    simp only [step, handleUploadStart]
    cases hv : s.videoFile <;> simp_all
  | uploadSettled outcome =>
    simp only [step]
    split
    · exact h
    · obtain ⟨h1, h2, h3, _⟩ := handleUploadSettle_fields s outcome
      rw [h1, h2, h3]
      exact h
  | startWebcam => simp [step, startWebcamAnalysis]
  | stopWebcam =>
    have : (step s .stopWebcam).isWebcamActive = false := rfl
    simp [this]
  | tick webcam =>
    simp only [step]
    split
    · exact h
    · unfold intervalTick
      split
      · split
        · exact h
        · simpa using h
      · exact h
  | frameResolves res now =>
    simp only [step]
    split
    · exact h
    · simpa [frameResolved] using h
  | frameRejects =>
    simp only [step]
    split
    · exact h
    · simpa [frameRejected] using h
  | unmount =>
    have : (step s .unmount).isWebcamActive = false := rfl
    simp [this]

theorem run_modesExclusive (events : List Event) :
    ∀ s : State, ModesExclusive s → ModesExclusive (run s events) := by
  induction events with
  | nil => intro s h; exact h
  | cons e es ih =>
    intro s h
    exact ih (step s e) (step_modesExclusive s e h)

/-- C6: in every state reached from the initial state by any sequence of handler calls,
interval ticks, settled requests and teardown, a staged file or preview and active live
capture never hold together; selecting a file switches live capture off, and starting
live capture clears the staged file and its preview. -/
theorem file_and_live_modes_exclusive (events : List Event) :
    ¬ (((run initialState events).videoFile ≠ none
          ∨ (run initialState events).videoPreviewUrl ≠ none)
        ∧ (run initialState events).isWebcamActive = true)
    ∧ (∀ (s : State) (f : VideoFile) (url : String),
        (handleVideoChange s (some f) url).isWebcamActive = false
        ∧ ∀ id, id ≠ 0 → s.webcamIntervalRef = some id →
            id ∉ (handleVideoChange s (some f) url).timers
            ∧ (handleVideoChange s (some f) url).webcamIntervalRef = none)
    ∧ (∀ s : State, (startWebcamAnalysis s).videoFile = none
        ∧ (startWebcamAnalysis s).videoPreviewUrl = none) := by
  refine ⟨?_, ?_, ?_⟩
  · have h0 : ModesExclusive initialState := by simp [ModesExclusive, initialState]
    exact run_modesExclusive events initialState h0
  · intro s f url
    refine ⟨rfl, ?_⟩
    intro id hid href
    simp [handleVideoChange, stopWebcamAnalysis, href, hid, clearInterval]
  · intro s
    exact ⟨rfl, rfl⟩

theorem file_and_live_modes_exclusive_witness :
    (handleVideoChange liveOneInFlight (some sampleFile) "blob:clip").webcamIntervalRef = none
    ∧ (handleVideoChange liveOneInFlight (some sampleFile) "blob:clip").timers = [] :=
  ⟨(((file_and_live_modes_exclusive []).2.1 liveOneInFlight sampleFile "blob:clip").2
      1 (by decide) rfl).2, by decide⟩

/-! ## Uploading while live capture is on -/

theorem uploadDuringLive_running : Running uploadDuringLive :=
  ⟨rfl, 1, by decide, rfl, by decide⟩

theorem liveWithStagedFile_running : Running liveWithStagedFile :=
  ⟨rfl, 1, by decide, rfl, by decide⟩

theorem running_reachable_no_file (events : List Event)
    (h : Running (run initialState events)) : (run initialState events).videoFile = none := by
  have h0 : ModesExclusive initialState := by simp [ModesExclusive, initialState]
  have hex := run_modesExclusive events initialState h0
  unfold ModesExclusive at hex
  by_contra hne
  exact hex ⟨Or.inl hne, h.1⟩

/-- C7, as stated, fails: with live capture started on a fresh component, calling
`handleUpload` leaves the loop Running (the handle is kept and the interval stays
scheduled); it is not Stopped. The same holds where a file is staged next to the Running
loop, so that the request is really sent and answered. And through enabled controls
alone (file, upload, second file, start) an upload is in flight while the loop is
Running; when it settles its entries land in the history and the loop is still
Running. -/
theorem upload_leaves_loop_running :
    ¬ (∀ s : State, Running s → Stopped (handleUploadStart s))
    ∧ ¬ (∀ (s : State) (outcome : Except UploadError VideoResponse),
          Running s → Stopped (handleUpload s outcome))
    ∧ ¬ (∀ (s : State) (outcome : Except UploadError VideoResponse),
          Running s → s.videoFile ≠ none → Stopped (handleUpload s outcome))
    ∧ (allEnabled initialState overlapEvents = true
        ∧ Running uploadDuringLive
        ∧ uploadDuringLive.uploadsInFlight = 1
        ∧ Running (run uploadDuringLive [.uploadSettled (.ok scenarioResponse)])
        ∧ (run uploadDuringLive [.uploadSettled (.ok scenarioResponse)]).feedback
            = scenarioFeedback) := by
  refine ⟨?_, ?_, ?_, ?_⟩
  · intro h
    have h1 := (h liveOneInFlight liveOneInFlight_running).2
    exact absurd h1 (by decide)
  · intro h
    have h1 := (h liveOneInFlight (.error .noResponse) liveOneInFlight_running).2
    exact absurd h1 (by decide)
  · intro h
    have h1 := (h liveWithStagedFile (.ok scenarioResponse) liveWithStagedFile_running
      (by decide)).2
    exact absurd h1 (by decide)
  · exact ⟨by decide, uploadDuringLive_running, rfl, ⟨rfl, 1, by decide, rfl, by decide⟩, rfl⟩

/-- C7, amended: `handleUpload` never stops the loop. Whether it returns early or sends
the request, and however and whenever the request settles, `isWebcamActive`, the interval
handle and the scheduled intervals are as before, so a Running loop is still Running
afterwards. The upload button is disabled while `isWebcamActive` is true, and in every
state reached from the initial state a Running loop has no staged file, so `handleUpload`
called there only sets the no-file message: no request is sent and the history and the
busy flag stay as they are. -/
theorem upload_keeps_loop_state (s : State) (outcome : Except UploadError VideoResponse) :
    ((handleUploadStart s).isWebcamActive = s.isWebcamActive
      ∧ (handleUploadStart s).webcamIntervalRef = s.webcamIntervalRef
      ∧ (handleUploadStart s).timers = s.timers)
    ∧ ((handleUploadSettle s outcome).isWebcamActive = s.isWebcamActive
      ∧ (handleUploadSettle s outcome).webcamIntervalRef = s.webcamIntervalRef
      ∧ (handleUploadSettle s outcome).timers = s.timers)
    ∧ ((handleUpload s outcome).isWebcamActive = s.isWebcamActive
      ∧ (handleUpload s outcome).webcamIntervalRef = s.webcamIntervalRef
      ∧ (handleUpload s outcome).timers = s.timers)
    ∧ (Running s → Running (handleUploadStart s) ∧ Running (handleUploadSettle s outcome)
        ∧ Running (handleUpload s outcome))
    ∧ (s.isWebcamActive = true → uploadDisabled s = true)
    ∧ (∀ events : List Event, Running (run initialState events) →
        (handleUpload (run initialState events) outcome).error
            = some "Please select a video file to upload."
        ∧ (handleUpload (run initialState events) outcome).uploadsInFlight
            = (run initialState events).uploadsInFlight
        ∧ (handleUpload (run initialState events) outcome).feedback
            = (run initialState events).feedback
        ∧ (handleUpload (run initialState events) outcome).loading
            = (run initialState events).loading) := by
  have h1 := handleUploadStart_fields s
  have h2 : (handleUploadSettle s outcome).isWebcamActive = s.isWebcamActive
      ∧ (handleUploadSettle s outcome).webcamIntervalRef = s.webcamIntervalRef
      ∧ (handleUploadSettle s outcome).timers = s.timers := by
    obtain ⟨_, _, a, b, c, _⟩ := handleUploadSettle_fields s outcome
    exact ⟨a, b, c⟩
  have h3 : (handleUpload s outcome).isWebcamActive = s.isWebcamActive
      ∧ (handleUpload s outcome).webcamIntervalRef = s.webcamIntervalRef
      ∧ (handleUpload s outcome).timers = s.timers := by
    unfold handleUpload
    cases hv : s.videoFile with
    | none => exact h1
    | some f =>
      obtain ⟨_, _, a, b, c, _⟩ := handleUploadSettle_fields (handleUploadStart s) outcome
      dsimp only
      rw [a, b, c]
      exact h1
  refine ⟨h1, h2, h3, ?_, ?_, ?_⟩
  · intro hrun
    unfold Running at hrun ⊢
    rw [h1.1, h1.2.1, h1.2.2, h2.1, h2.2.1, h2.2.2, h3.1, h3.2.1, h3.2.2]
    exact ⟨hrun, hrun, hrun⟩
  · intro hact
    simp [uploadDisabled, hact]
  · intro events hrun
    have hv := running_reachable_no_file events hrun
    simp [handleUpload, handleUploadStart, hv]

theorem upload_keeps_loop_state_witness :
    Running uploadDuringLive
    ∧ Running (handleUploadSettle uploadDuringLive (.ok scenarioResponse))
    ∧ uploadDisabled uploadDuringLive = true
    ∧ (handleUpload (run initialState overlapEvents) (.ok scenarioResponse)).error
        = some "Please select a video file to upload." :=
  ⟨uploadDuringLive_running,
    ((upload_keeps_loop_state uploadDuringLive (.ok scenarioResponse)).2.2.2.1
      uploadDuringLive_running).2.1,
    (upload_keeps_loop_state uploadDuringLive (.ok scenarioResponse)).2.2.2.2.1 rfl,
    ((upload_keeps_loop_state uploadDuringLive (.ok scenarioResponse)).2.2.2.2.2
      overlapEvents uploadDuringLive_running).1⟩

/-! ## Stopping an already stopped loop -/

theorem stopWebcamAnalysis_of_stopped (s : State) (h : Stopped s) :
    stopWebcamAnalysis s = { s with loading := false, error := none } := by
  obtain ⟨href, hact⟩ := h
  cases s
  simp_all [stopWebcamAnalysis]

theorem stopWebcamAnalysis_idem (s : State) :
    stopWebcamAnalysis (stopWebcamAnalysis s) = stopWebcamAnalysis s := by
  cases hr : s.webcamIntervalRef with
  | none => simp [stopWebcamAnalysis, hr]
  | some id =>
    by_cases h : id = 0
    · simp [stopWebcamAnalysis, hr, h]
    · simp [stopWebcamAnalysis, hr, h]

/-- C8, as stated, fails: after the upload button was pressed with no file chosen the loop
is Stopped and the error state holds the validation message; `stopWebcamAnalysis` then
clears the message, so the state does change. -/
theorem stop_on_stopped_clears_error :
    ¬ (∀ s : State, Stopped s → stopWebcamAnalysis s = s) := by
  intro h
  have h1 := congrArg State.error (h afterEmptyUpload ⟨rfl, rfl⟩)
  have h2 : (stopWebcamAnalysis afterEmptyUpload).error = none := rfl
  have h3 : afterEmptyUpload.error = some "Please select a video file to upload." := rfl
  rw [h2, h3] at h1
  exact Option.noConfusion h1

/-- C8, amended: on a Stopped loop `stopWebcamAnalysis` leaves the staged file, the
preview, the history, the active flag, the interval handle and the scheduled intervals
unchanged and sets the busy flag to false and the error state to null; it is the identity
exactly on the Stopped states whose busy flag is already false and whose error is already
null, and in every state stopping twice equals stopping once. -/
theorem stop_on_stopped_resets_busy_and_error (s : State) (h : Stopped s) :
    stopWebcamAnalysis s = { s with loading := false, error := none }
    ∧ ((stopWebcamAnalysis s).videoFile = s.videoFile
      ∧ (stopWebcamAnalysis s).videoPreviewUrl = s.videoPreviewUrl
      ∧ (stopWebcamAnalysis s).feedback = s.feedback
      ∧ (stopWebcamAnalysis s).isWebcamActive = s.isWebcamActive
      ∧ (stopWebcamAnalysis s).webcamIntervalRef = s.webcamIntervalRef
      ∧ (stopWebcamAnalysis s).timers = s.timers)
    ∧ (stopWebcamAnalysis s).loading = false
    ∧ (stopWebcamAnalysis s).error = none
    ∧ (stopWebcamAnalysis s = s ↔ s.loading = false ∧ s.error = none)
    ∧ stopWebcamAnalysis (stopWebcamAnalysis s) = stopWebcamAnalysis s := by
  have heq := stopWebcamAnalysis_of_stopped s h
  refine ⟨heq, ?_, rfl, rfl, ?_, stopWebcamAnalysis_idem s⟩
  · rw [heq]
    exact ⟨rfl, rfl, rfl, rfl, rfl, rfl⟩
  · rw [heq]
    constructor
    · intro hs
      have hl := congrArg State.loading hs
      have he := congrArg State.error hs
      exact ⟨hl.symm, he.symm⟩
    · rintro ⟨hl, he⟩
      cases s
      simp_all

theorem stop_on_stopped_resets_busy_and_error_witness :
    Stopped afterEmptyUpload
    ∧ (stopWebcamAnalysis afterEmptyUpload).error = none
    ∧ (stopWebcamAnalysis afterEmptyUpload).feedback = afterEmptyUpload.feedback :=
  ⟨⟨rfl, rfl⟩,
    (stop_on_stopped_resets_busy_and_error afterEmptyUpload ⟨rfl, rfl⟩).2.2.2.1,
    (stop_on_stopped_resets_busy_and_error afterEmptyUpload ⟨rfl, rfl⟩).2.1.2.2.1⟩

/-! ## Errors and later successes -/

/-- C9, as stated, fails: in live mode, after one frame analysis was rejected, a second
one that resolves successfully leaves the error message in place. -/
theorem frame_success_keeps_error :
    ¬ (∀ (s : State) (res : FrameResponse) (now : String),
        s.isWebcamActive = true → s.error ≠ none → 0 < s.framesInFlight →
        (run s [.frameResolves res now]).error = none) := by
  intro h
  have h1 := h liveAfterFailure { issues := some [] } "10:15:01" rfl (by decide) (by decide)
  have h2 : (run liveAfterFailure [.frameResolves { issues := some [] } "10:15:01"]).error
      = some "Live analysis error. Check backend console." := by
    decide
  rw [h2] at h1
  exact Option.noConfusion h1

/-- C9, amended: a frame analysis that resolves successfully appends its entry and leaves
the error state exactly as it was (a message set by an earlier failed frame stays until
live capture is started or stopped or a file is selected). `handleUpload` with a staged
file clears the error state when it starts and its success branch leaves the error state
as it finds it, so a call that succeeds with nothing else happening in between ends with
the error state null. -/
theorem success_and_error_state (s : State) (res : FrameResponse) (now : String) :
    (run s [.frameResolves res now]).error = s.error
    ∧ (frameResolved s res now).error = s.error
    ∧ (frameResolved s res now).feedback.getLast? = some (newFeedback res now)
    ∧ (∀ (f : VideoFile) (r : VideoResponse), s.videoFile = some f →
        (handleUploadStart s).error = none
        ∧ (handleUpload s (.ok r)).error = none)
    ∧ (∀ r : VideoResponse, (handleUploadSettle s (.ok r)).error = s.error) := by
  refine ⟨?_, rfl, liveUpdater_getLast res now _, ?_, fun r => rfl⟩
  · simp only [run, List.foldl, step]
    split <;> rfl
  · intro f r hf
    simp [handleUpload, handleUploadStart, handleUploadSettle, hf]

theorem success_and_error_state_witness :
    stagedWithHistory.videoFile = some sampleFile
    ∧ (handleUpload stagedWithHistory (.ok scenarioResponse)).error = none :=
  ⟨rfl,
    ((success_and_error_state stagedWithHistory { issues := none } "10:15:00").2.2.2.1
      sampleFile scenarioResponse rfl).2⟩

/-! ## Release of the interval -/

theorem clearInterval_singleton (id : Nat) : clearInterval [id] id = [] := by
  simp [clearInterval]

theorem stopWebcamAnalysis_loopInv (s : State) (h : LoopInv s) :
    LoopInv (stopWebcamAnalysis s) ∧ (stopWebcamAnalysis s).timers = [] := by
  obtain ⟨_, hnz, hnext, hsched⟩ := h
  unfold OnlyRefScheduled at hsched
  cases hr : s.webcamIntervalRef with
  | none =>
    rw [hr] at hsched
    simp [LoopInv, OnlyRefScheduled, stopWebcamAnalysis, hr, hsched, hnext]
  | some id =>
    rw [hr] at hsched
    have hid : id ≠ 0 := hnz id hr
    simp [LoopInv, OnlyRefScheduled, stopWebcamAnalysis, hr, hsched, hnext, hid,
      clearInterval_singleton]

theorem startWebcamAnalysis_loopInv (s : State) (h : LoopInv s)
    (hoff : s.isWebcamActive = false) : LoopInv (startWebcamAnalysis s) := by
  obtain ⟨hnone, _, hnext, hsched⟩ := h
  unfold OnlyRefScheduled at hsched
  rw [hnone hoff] at hsched
  refine ⟨?_, ?_, ?_, ?_⟩
  · intro hc; simp [startWebcamAnalysis] at hc
  · intro id hid
    simp only [startWebcamAnalysis, Option.some.injEq] at hid
    omega
  · simp only [startWebcamAnalysis]; omega
  · simp [OnlyRefScheduled, startWebcamAnalysis, hsched]

theorem step_loopInv (s : State) (e : Event) (h : LoopInv s)
    (hguard : e = Event.startWebcam → startButtonRendered s = true) :
    LoopInv (step s e) := by
  cases e with
  | videoChange file url =>
    cases file with
    | none => exact h
    | some f =>
      exact (stopWebcamAnalysis_loopInv
        { s with videoFile := some f, videoPreviewUrl := some url, feedback := [],
                 error := none } h).1
  | uploadClick =>
    simp only [step, handleUploadStart]
    cases s.videoFile <;> exact h
  | uploadSettled outcome =>
    simp only [step]
    split
    · exact h
    · obtain ⟨_, _, h3, h4, h5, h6⟩ := handleUploadSettle_fields s outcome
      unfold LoopInv OnlyRefScheduled
      rw [h3, h4, h5, h6]
      exact h
  | startWebcam =>
    have hoff : s.isWebcamActive = false := by
      have := hguard rfl
      simpa [startButtonRendered] using this
    exact startWebcamAnalysis_loopInv s h hoff
  | stopWebcam => exact (stopWebcamAnalysis_loopInv s h).1
  | tick webcam =>
    simp only [step]
    split
    · exact h
    · unfold intervalTick
      split
      · split <;> exact h
      · exact h
  | frameResolves res now =>
    simp only [step]
    split <;> exact h
  | frameRejects =>
    simp only [step]
    split <;> exact h
  | unmount => exact (stopWebcamAnalysis_loopInv s h).1

theorem run_loopInv (events : List Event) :
    ∀ s : State, LoopInv s → startOnlyWhenRendered s events = true →
      LoopInv (run s events) := by
  induction events with
  | nil => intro s h _; exact h
  | cons e es ih =>
    intro s h hg
    simp only [startOnlyWhenRendered, Bool.and_eq_true] at hg
    have hstep : LoopInv (step s e) := by
      apply step_loopInv s e h
      intro he
      subst he
      simpa using hg.1
    exact ih (step s e) hstep hg.2

theorem handleVideoChange_timers (s : State) (h : LoopInv s) (f : VideoFile) (url : String) :
    (handleVideoChange s (some f) url).timers = [] :=
  (stopWebcamAnalysis_loopInv
    { s with videoFile := some f, videoPreviewUrl := some url, feedback := [],
             error := none } h).2

theorem initialState_loopInv : LoopInv initialState := by
  simp [LoopInv, OnlyRefScheduled, initialState]

/-- C10, as stated, fails: two calls of `startWebcamAnalysis` in a row on a fresh
component leave two intervals scheduled, only the second of them held in the ref, and
the first is still scheduled after `stopWebcamAnalysis`. -/
theorem second_start_leaks_interval :
    ¬ (∀ events : List Event, (run initialState events).timers.length ≤ 1)
    ∧ ¬ (∀ events : List Event, OnlyRefScheduled (run initialState events))
    ∧ ¬ (∀ events : List Event, (stopWebcamAnalysis (run initialState events)).timers = []) := by
  refine ⟨?_, ?_, ?_⟩
  · intro h
    exact absurd (h [.startWebcam, .startWebcam]) (by decide)
  · intro h
    have h1 := h [.startWebcam, .startWebcam]
    have h2 : (run initialState [.startWebcam, .startWebcam]).timers = [1, 2] := rfl
    have h3 : (run initialState [.startWebcam, .startWebcam]).webcamIntervalRef = some 2 := rfl
    unfold OnlyRefScheduled at h1
    rw [h2, h3] at h1
    exact absurd h1 (by decide)
  · intro h
    have h1 := h [.startWebcam, .startWebcam]
    have h2 : (stopWebcamAnalysis (run initialState [.startWebcam, .startWebcam])).timers
        = [1] := by decide
    rw [h2] at h1
    exact List.cons_ne_nil _ _ h1

/-- C10, amended: in every state reached from the initial state by a sequence of handler
calls, ticks, settled requests and teardown in which `startWebcamAnalysis` is called only
while its button is rendered (`isWebcamActive` false), at most one interval is scheduled
and it is the one held in `webcamIntervalRef`; right after `stopWebcamAnalysis`, after
teardown and after selecting a file no interval remains scheduled. -/
theorem interval_released_when_start_guarded (events : List Event)
    (hguard : startOnlyWhenRendered initialState events = true) :
    (run initialState events).timers.length ≤ 1
    ∧ (run initialState events).timers
        = (match (run initialState events).webcamIntervalRef with
            | some id => [id]
            | none => [])
    ∧ (stopWebcamAnalysis (run initialState events)).timers = []
    ∧ (teardown (run initialState events)).timers = []
    ∧ (∀ (f : VideoFile) (url : String),
        (handleVideoChange (run initialState events) (some f) url).timers = []) := by
  have hinv := run_loopInv events initialState initialState_loopInv hguard
  have hsched : OnlyRefScheduled (run initialState events) := hinv.2.2.2
  refine ⟨?_, hsched, (stopWebcamAnalysis_loopInv _ hinv).2,
    (stopWebcamAnalysis_loopInv _ hinv).2, ?_⟩
  · unfold OnlyRefScheduled at hsched
    rw [hsched]
    cases (run initialState events).webcamIntervalRef <;> simp
  · intro f url
    exact handleVideoChange_timers _ hinv f url

theorem interval_released_when_start_guarded_witness :
    startOnlyWhenRendered initialState
        [.startWebcam, .tick (some (some "data:image/jpeg;base64,AAAA")), .stopWebcam,
         .startWebcam] = true
    ∧ (run initialState
        [.startWebcam, .tick (some (some "data:image/jpeg;base64,AAAA")), .stopWebcam,
         .startWebcam]).timers = [2]
    ∧ (stopWebcamAnalysis (run initialState
        [.startWebcam, .tick (some (some "data:image/jpeg;base64,AAAA")), .stopWebcam,
         .startWebcam])).timers = [] :=
  ⟨by decide, by decide,
    (interval_released_when_start_guarded
      [.startWebcam, .tick (some (some "data:image/jpeg;base64,AAAA")), .stopWebcam,
       .startWebcam] (by decide)).2.2.1⟩

end App
